import Mathlib

/-!
Verification of the Friday-Monday pattern trading system
(`trading_app.py` and `email_automation.py`).

The daily OHLCV bars, the indicator calculator, the Thursday/Friday setup
detector, the Monday gap detector and the position-sizing signal logic are
embedded as executable Lean definitions over exact rationals.  Pandas
`dayofweek` numbering is kept (Monday = 0, ..., Sunday = 6).  NumPy float
division of a finite value by zero does not raise; it produces an infinity
(or NaN for 0/0), so the RSI arithmetic is embedded over an extended value
type `RVal` with infinities and NaN.  Python `ZeroDivisionError` (raised by
scalar `/` on a zero divisor) is embedded as an `Except.error .divByZero`
result.
-/

/-- One daily OHLCV bar.  Field names follow the pandas column names used by
the source (`data['Open']`, `data['High']`, ...); `weekday` is the pandas
`index[i].dayofweek` value, Monday = 0 through Sunday = 6. -/
structure PriceBar where
  weekday : Nat
  Open : ℚ
  High : ℚ
  Low : ℚ
  Close : ℚ
  Volume : ℚ
deriving DecidableEq, Repr

/-- Extended value mirroring the IEEE-754 behaviour NumPy gives the RSI
pipeline: a finite value, plus or minus infinity, or NaN. -/
inductive RVal where
  | fin (q : ℚ)
  | inf
  | ninf
  | nan
deriving DecidableEq, Repr

namespace RVal

/-- IEEE negation. -/
def neg : RVal → RVal
  | fin q => fin (-q)
  | inf => ninf
  | ninf => inf
  | nan => nan

/-- IEEE addition (restricted to the cases the RSI pipeline exercises:
inf + (-inf) is NaN, NaN propagates). -/
def add : RVal → RVal → RVal
  | fin a, fin b => fin (a + b)
  | fin _, inf => inf
  | fin _, ninf => ninf
  | inf, fin _ => inf
  | ninf, fin _ => ninf
  | inf, inf => inf
  | ninf, ninf => ninf
  | inf, ninf => nan
  | ninf, inf => nan
  | nan, _ => nan
  | _, nan => nan

/-- IEEE subtraction, defined as addition of the negation. -/
def sub (a b : RVal) : RVal := add a (neg b)

/-- IEEE division as NumPy performs it: a finite nonzero value divided by
zero is a signed infinity, 0/0 is NaN, a finite value divided by an
infinity is zero, inf/inf is NaN. -/
def div : RVal → RVal → RVal
  | fin a, fin b =>
      if b = 0 then
        if a > 0 then inf else if a < 0 then ninf else nan
      else fin (a / b)
  | fin _, inf => fin 0
  | fin _, ninf => fin 0
  | inf, fin b => if b < 0 then ninf else inf
  | ninf, fin b => if b < 0 then inf else ninf
  | inf, inf => nan
  | inf, ninf => nan
  | ninf, inf => nan
  | ninf, ninf => nan
  | nan, _ => nan
  | _, nan => nan

end RVal

/-- Day-over-day close deltas, `data['Close'].diff()`: the first entry is
NaN (`none`), entry `i` is `close[i] - close[i-1]`. -/
def diffs : List ℚ → List (Option ℚ)
  | [] => []
  | c :: cs => none :: diffsFrom c cs
where
  /-- Deltas of the tail against the running previous close. -/
  diffsFrom : ℚ → List ℚ → List ℚ
    | _, [] => []
    | p, c :: cs => (c - p) :: diffsFrom c cs

/-- `delta.where(delta > 0, 0)`: keep the delta where it is positive, else 0.
The leading NaN fails the comparison and becomes 0. -/
def gains (closes : List ℚ) : List ℚ :=
  (diffs closes).map fun d =>
    match d with
    | none => 0
    | some v => if v > 0 then v else 0

/-- `-delta.where(delta < 0, 0)`: the negated delta where it is negative,
else 0.  The leading NaN fails the comparison and becomes 0. -/
def losses (closes : List ℚ) : List ℚ :=
  (diffs closes).map fun d =>
    match d with
    | none => 0
    | some v => if v < 0 then -v else 0

/-- `series.rolling(n).mean()`: entry `i` is the mean of entries
`i-n+1 .. i`, NaN (`none`) while fewer than `n` values are available. -/
def rollingMean (n : Nat) (xs : List ℚ) : List (Option ℚ) :=
  (List.range xs.length).map fun i =>
    if n ≤ i + 1 then some (((xs.drop (i + 1 - n)).take n).sum / n)
    else none

/-- The RSI(14) series: `rs = gain / loss`, `RSI = 100 - 100/(1 + rs)`,
computed pointwise in IEEE arithmetic over the two rolling means; NaN where
either rolling mean is undefined. -/
def rsiList (closes : List ℚ) : List RVal :=
  List.zipWith
    (fun g l =>
      match g, l with
      | some g, some l =>
          RVal.sub (.fin 100)
            (RVal.div (.fin 100) (RVal.add (.fin 1) (RVal.div (.fin g) (.fin l))))
      | _, _ => RVal.nan)
    (rollingMean 14 (gains closes)) (rollingMean 14 (losses closes))

/-- `data['Volume'] / data['Volume_SMA_20']` pointwise; a NaN denominator
gives NaN, a zero denominator gives an infinity (NumPy semantics). -/
def volumeRatioList (vols : List ℚ) : List RVal :=
  List.zipWith
    (fun v m =>
      match m with
      | none => RVal.nan
      | some m => RVal.div (.fin v) (.fin m))
    vols (rollingMean 20 vols)

/-- The pandas DataFrame as the two scripts use it: the OHLCV bars plus the
optional indicator columns the scripts may have attached (`none` = column
absent). -/
structure DataFrame where
  bars : List PriceBar
  RSI : Option (List RVal) := none
  SMA_20 : Option (List (Option ℚ)) := none
  SMA_50 : Option (List (Option ℚ)) := none
  Volume_SMA_20 : Option (List (Option ℚ)) := none
  Volume_Ratio : Option (List RVal) := none
deriving DecidableEq, Repr

/-- Closes column of a frame. -/
def DataFrame.closes (df : DataFrame) : List ℚ := df.bars.map PriceBar.Close

/-- Volume column of a frame. -/
def DataFrame.volumes (df : DataFrame) : List ℚ := df.bars.map PriceBar.Volume

namespace trading_app

/-- `calculate_indicators` of `trading_app.py`: below 20 bars the frame is
returned untouched; otherwise the RSI, SMA_20, SMA_50, Volume_SMA_20 and
Volume_Ratio columns are assigned (in place) and the frame returned. -/
def calculate_indicators (data : DataFrame) : DataFrame :=
  if data.bars.length < 20 then data
  else
    { data with
      RSI := some (rsiList data.closes)
      SMA_20 := some (rollingMean 20 data.closes)
      SMA_50 := some (rollingMean 50 data.closes)
      Volume_SMA_20 := some (rollingMean 20 data.volumes)
      Volume_Ratio := some (volumeRatioList data.volumes) }

/-- The Python call `calculate_indicators(data)` assigns columns to the
caller's DataFrame object itself, so after the call the argument and the
returned reference are the same mutated frame.  The pair is
(state of the argument after the call, returned value). -/
def calculate_indicators_call (data : DataFrame) : DataFrame × DataFrame :=
  (calculate_indicators data, calculate_indicators data)

end trading_app

namespace email_automation

/-- `calculate_indicators` of `email_automation.py`: identical to the
`trading_app.py` copy except that no SMA_50 column is assigned. -/
def calculate_indicators (data : DataFrame) : DataFrame :=
  if data.bars.length < 20 then data
  else
    { data with
      RSI := some (rsiList data.closes)
      SMA_20 := some (rollingMean 20 data.closes)
      Volume_SMA_20 := some (rollingMean 20 data.volumes)
      Volume_Ratio := some (volumeRatioList data.volumes) }

end email_automation

/-- `data.tail(5)`: the last five bars (all of them when fewer). -/
def tail5 (bars : List PriceBar) : List PriceBar := bars.drop (bars.length - 5)

/-- The Thursday/Friday scan loop shared verbatim by both copies of
`check_pattern_setup`:
`for i in range(len(recent)-1)`, on a Thursday (`dayofweek == 3`) store the
bar as `thursday_data`; if the next bar is a Friday (`dayofweek == 4`)
store it as `friday_data` and `break`.  The state `th` is the current
`thursday_data`; the result is the final `(thursday_data, friday_data)`. -/
def scanTF (th : Option PriceBar) : List PriceBar → Option PriceBar × Option PriceBar
  | b :: c :: rest =>
      if b.weekday = 3 then
        if c.weekday = 4 then (some b, some c)
        else scanTF (some b) (c :: rest)
      else scanTF th (c :: rest)
  | _ => (th, none)

/-- The first defined value of an optional column's last entry:
`data['COL'].iloc[-1] if 'COL' in data.columns else None`. -/
def lastOf {α : Type} (col : Option (List α)) : Option α :=
  col.bind List.getLast?

/-- The result dict of `check_pattern_setup` in `trading_app.py`. -/
structure Pattern where
  thursday_high : ℚ
  friday_high : ℚ
  friday_low : ℚ
  friday_close : ℚ
  decline_pct : ℚ
  rsi : Option RVal
  below_sma20 : Bool
  volume_ratio : Option RVal
deriving DecidableEq, Repr

/-- The result dict of `check_pattern_setup` in `email_automation.py`. -/
structure PatternEA where
  friday_low : ℚ
  friday_close : ℚ
  friday_high : ℚ
  decline_pct : ℚ
  rsi : Option RVal
deriving DecidableEq, Repr

/-- `friday_data['Close'] < data['SMA_20'].iloc[-1] if 'SMA_20' in
data.columns else False`; the float comparison against a NaN entry is
False. -/
def belowSma20 (c : ℚ) (col : Option (List (Option ℚ))) : Bool :=
  match lastOf col with
  | some (some s) => decide (c < s)
  | _ => false

namespace trading_app

/-- `check_pattern_setup` of `trading_app.py`. -/
def check_pattern_setup (data : Option DataFrame) : Option Pattern :=
  match data with
  | none => none
  | some df =>
    if df.bars.length < 2 then none
    else
      let recent := tail5 df.bars
      match scanTF none recent with
      | (some thursday_data, some friday_data) =>
          if friday_data.High < thursday_data.High then
            some
              { thursday_high := thursday_data.High
                friday_high := friday_data.High
                friday_low := friday_data.Low
                friday_close := friday_data.Close
                decline_pct :=
                  (friday_data.High - thursday_data.High) / thursday_data.High * 100
                rsi := lastOf df.RSI
                below_sma20 := belowSma20 friday_data.Close df.SMA_20
                volume_ratio := lastOf df.Volume_Ratio }
          else none
      | _ => none

end trading_app

namespace email_automation

/-- `check_pattern_setup` of `email_automation.py`. -/
def check_pattern_setup (data : Option DataFrame) : Option PatternEA :=
  match data with
  | none => none
  | some df =>
    if df.bars.length < 2 then none
    else
      let recent := tail5 df.bars
      match scanTF none recent with
      | (some thursday_data, some friday_data) =>
          if friday_data.High < thursday_data.High then
            some
              { friday_low := friday_data.Low
                friday_close := friday_data.Close
                friday_high := friday_data.High
                decline_pct :=
                  (friday_data.High - thursday_data.High) / thursday_data.High * 100
                rsi := lastOf df.RSI }
          else none
      | _ => none

end email_automation

/-- The result dict of `check_monday_gap` (the `email_automation.py` copy
omits `monday_high`; the shared fields are identical). -/
structure GapInfo where
  friday_close : ℚ
  monday_open : ℚ
  monday_low : ℚ
  monday_high : ℚ
  gap_pct : ℚ
  has_gap_down : Bool
deriving DecidableEq, Repr

/-- The Friday/Monday scan loop of `check_monday_gap`: over every bar of
`recent = data.tail(3)`, a Friday bar overwrites `friday_close`, a Monday
bar overwrites `monday_open`/`monday_data` (no break, so the last
occurrence of each wins). -/
def scanFM : List PriceBar → Option ℚ → Option PriceBar → Option ℚ × Option PriceBar
  | [], fc, md => (fc, md)
  | b :: rest, fc, md =>
      if b.weekday = 4 then scanFM rest (some b.Close) md
      else if b.weekday = 0 then scanFM rest fc (some b)
      else scanFM rest fc md

/-- `check_monday_gap` of `trading_app.py`.  A zero `friday_close` would
raise `ZeroDivisionError` in Python; that crash is embedded as `none`. -/
def check_monday_gap (data : Option DataFrame) : Option GapInfo :=
  match data with
  | none => none
  | some df =>
    if df.bars.length < 2 then none
    else
      let recent := df.bars.drop (df.bars.length - 3)
      match scanFM recent none none with
      | (some friday_close, some monday_data) =>
          if friday_close = 0 then none
          else
            let gap_pct := (monday_data.Open - friday_close) / friday_close * 100
            some
              { friday_close := friday_close
                monday_open := monday_data.Open
                monday_low := monday_data.Low
                monday_high := monday_data.High
                gap_pct := gap_pct
                has_gap_down := decide (gap_pct < -(3 / 10)) }
      | _ => none

/-- Python `int()` on a float/rational: truncation toward zero. -/
def pyInt (q : ℚ) : ℤ := if 0 ≤ q then ⌊q⌋ else -⌊-q⌋

/-- The one runtime error scalar division can raise. -/
inductive SynthErr where
  | divByZero
deriving DecidableEq, Repr

namespace trading_app

/-- `calculate_position_size` of `trading_app.py`:
`risk_amount = capital * (risk_pct / 100)`,
`position_value = risk_amount / (stop_distance_pct / 100)`.  Python raises
`ZeroDivisionError` when the divisor is zero. -/
def calculate_position_size (capital risk_pct stop_distance_pct : ℚ) :
    Except SynthErr ℚ :=
  let risk_amount := capital * (risk_pct / 100)
  if stop_distance_pct / 100 = 0 then .error .divByZero
  else .ok (risk_amount / (stop_distance_pct / 100))

/-- The per-signal fields the Monday scanner of `trading_app.py` computes
for one watchlist stock. -/
structure TradeSignal where
  Entry : ℚ
  Target : ℚ
  Stop : ℚ
  Shares : ℤ
  Position_Value : ℚ
  Profit_Potential_pct : ℚ
  Risk_pct : ℚ
  Risk_Reward : ℚ
  Profit_if_Target : ℚ
  Loss_if_Stop : ℚ
  Capital_Risk_pct : ℚ
deriving DecidableEq, Repr

/-- The trade-spec computation of the Monday scanner in `trading_app.py`
(`entry = gap_info['monday_open']`, `target = row['Friday_Low']`,
`stop = row['Friday_High']`, then the percentage, position-size and
profit/loss lines).  The divisions by `entry` and by
`abs(risk_pct) / 100` raise `ZeroDivisionError` on a zero divisor. -/
def monday_signal (capital entry target stop : ℚ) :
    Except SynthErr TradeSignal :=
  if entry = 0 then .error .divByZero
  else
    let profit_pct := (target - entry) / entry * 100
    let risk_pct := (stop - entry) / entry * 100
    match calculate_position_size capital 1 |risk_pct| with
    | .error e => .error e
    | .ok position_value =>
        let shares := pyInt (position_value / entry)
        let actual_position := (shares : ℚ) * entry
        let profit_if_target := (shares : ℚ) * (target - entry)
        let loss_if_stop := (shares : ℚ) * (entry - stop)
        .ok
          { Entry := entry
            Target := target
            Stop := stop
            Shares := shares
            Position_Value := actual_position
            Profit_Potential_pct := profit_pct
            Risk_pct := |risk_pct|
            Risk_Reward := if risk_pct ≠ 0 then |profit_pct / risk_pct| else 0
            Profit_if_Target := profit_if_target
            Loss_if_Stop := loss_if_stop
            Capital_Risk_pct := |loss_if_stop| / capital * 100 }

end trading_app

namespace email_automation

/-- The per-signal fields `send_monday_alert` of `email_automation.py`
computes for one watchlist stock, intermediate values included. -/
structure TradeSignal where
  Entry : ℚ
  Target : ℚ
  Stop : ℚ
  profit_pct : ℚ
  risk_pct : ℚ
  risk_amount : ℚ
  position_value : ℚ
  Shares : ℤ
  Position : ℚ
  Profit : ℚ
  Loss : ℚ
deriving DecidableEq, Repr

/-- The trade-spec computation of `send_monday_alert` in
`email_automation.py`:
`risk_pct = abs(((stop - entry) / entry) * 100)`,
`risk_amount = capital * 0.01`,
`position_value = risk_amount / (risk_pct / 100)`,
`shares = int(position_value / entry)`.  The divisions by `entry` and by
`risk_pct / 100` raise `ZeroDivisionError` on a zero divisor. -/
def send_monday_alert_signal (capital entry target stop : ℚ) :
    Except SynthErr TradeSignal :=
  if entry = 0 then .error .divByZero
  else
    let profit_pct := (target - entry) / entry * 100
    let risk_pct := |(stop - entry) / entry * 100|
    let risk_amount := capital * (1 / 100)
    if risk_pct / 100 = 0 then .error .divByZero
    else
      let position_value := risk_amount / (risk_pct / 100)
      let shares := pyInt (position_value / entry)
      .ok
        { Entry := entry
          Target := target
          Stop := stop
          profit_pct := profit_pct
          risk_pct := risk_pct
          risk_amount := risk_amount
          position_value := position_value
          Shares := shares
          Position := (shares : ℚ) * entry
          Profit := (shares : ℚ) * (target - entry)
          Loss := (shares : ℚ) * (entry - stop) }

end email_automation

/-- Follows the claim's words (for comparison with the source scan): only
the first Thursday found in the window is considered; the scan stops after
the match attempt on it, whether or not a Friday immediately follows. -/
def firstThursdayScan : List PriceBar → Option (PriceBar × PriceBar)
  | b :: c :: rest =>
      if b.weekday = 3 then
        if c.weekday = 4 then some (b, c) else none
      else firstThursdayScan (c :: rest)
  | _ => none

/-- The setup detector as the claim describes it: identical to
`trading_app.check_pattern_setup` except that the window scan is
`firstThursdayScan`. -/
def check_pattern_setup_firstThursday (data : Option DataFrame) : Option Pattern :=
  match data with
  | none => none
  | some df =>
    if df.bars.length < 2 then none
    else
      match firstThursdayScan (tail5 df.bars) with
      | some (thursday_data, friday_data) =>
          if friday_data.High < thursday_data.High then
            some
              { thursday_high := thursday_data.High
                friday_high := friday_data.High
                friday_low := friday_data.Low
                friday_close := friday_data.Close
                decline_pct :=
                  (friday_data.High - thursday_data.High) / thursday_data.High * 100
                rsi := lastOf df.RSI
                below_sma20 := belowSma20 friday_data.Close df.SMA_20
                volume_ratio := lastOf df.Volume_Ratio }
          else none
      | none => none

/-- The first index-adjacent Thursday-then-Friday pair of a window: the scan
continues past a Thursday that is not immediately followed by a Friday. -/
def firstAdjacentTF : List PriceBar → Option (PriceBar × PriceBar)
  | b :: c :: rest =>
      if b.weekday = 3 ∧ c.weekday = 4 then some (b, c)
      else firstAdjacentTF (c :: rest)
  | _ => none

/-- The setup detector restated over `firstAdjacentTF`: emit on the first
index-adjacent Thursday/Friday pair of the trailing five bars. -/
def check_pattern_setup_adjacent (data : Option DataFrame) : Option Pattern :=
  match data with
  | none => none
  | some df =>
    if df.bars.length < 2 then none
    else
      match firstAdjacentTF (tail5 df.bars) with
      | some (thursday_data, friday_data) =>
          if friday_data.High < thursday_data.High then
            some
              { thursday_high := thursday_data.High
                friday_high := friday_data.High
                friday_low := friday_data.Low
                friday_close := friday_data.Close
                decline_pct :=
                  (friday_data.High - thursday_data.High) / thursday_data.High * 100
                rsi := lastOf df.RSI
                below_sma20 := belowSma20 friday_data.Close df.SMA_20
                volume_ratio := lastOf df.Volume_Ratio }
          else none
      | none => none

/-- The projection of a `trading_app.py` pattern dict onto the five fields
the `email_automation.py` copy also returns. -/
def Pattern.shared (p : Pattern) : PatternEA :=
  { friday_low := p.friday_low
    friday_close := p.friday_close
    friday_high := p.friday_high
    decline_pct := p.decline_pct
    rsi := p.rsi }

/-- A degenerate all-flat bar used by concrete test frames. -/
def flatBar (w : Nat) (c : ℚ) : PriceBar :=
  { weekday := w, Open := c, High := c, Low := c, Close := c, Volume := 1 }

/-- Twenty bars with strictly increasing closes 1, 2, ..., 20. -/
def df20 : DataFrame :=
  { bars :=
      [ flatBar 0 1, flatBar 1 2, flatBar 2 3, flatBar 3 4, flatBar 4 5
      , flatBar 0 6, flatBar 1 7, flatBar 2 8, flatBar 3 9, flatBar 4 10
      , flatBar 0 11, flatBar 1 12, flatBar 2 13, flatBar 3 14, flatBar 4 15
      , flatBar 0 16, flatBar 1 17, flatBar 2 18, flatBar 3 19, flatBar 4 20 ] }

/-- Three bars only: too short for any indicator. -/
def dfShort : DataFrame :=
  { bars := [flatBar 3 10, flatBar 4 11, flatBar 0 12] }

/-- A holiday-shifted window: a Thursday not followed by a Friday
(weekdays Thu, Mon, Tue), then a second Thursday/Friday pair whose Friday
high 108 is below the Thursday high 110. -/
def dfTwoThursdays : DataFrame :=
  { bars :=
      [ { weekday := 3, Open := 100, High := 100, Low := 99, Close := 100, Volume := 1 }
      , flatBar 0 101
      , flatBar 1 102
      , { weekday := 3, Open := 109, High := 110, Low := 108, Close := 109, Volume := 1 }
      , { weekday := 4, Open := 108, High := 108, Low := 100, Close := 104, Volume := 1 } ] }

/-- A Friday close 100 followed by a Monday open 99: a -1% gap. -/
def dfGap : DataFrame :=
  { bars :=
      [ { weekday := 4, Open := 101, High := 102, Low := 100, Close := 100, Volume := 1 }
      , { weekday := 0, Open := 99, High := 100, Low := 98, Close := 99, Volume := 1 } ] }

/-- Thursday high 110, then Friday high 108 / low 100 / close 104: the
setup of the spec's end-to-end scenario. -/
def dfSetup : DataFrame :=
  { bars :=
      [ { weekday := 3, Open := 109, High := 110, Low := 108, Close := 109, Volume := 1 }
      , { weekday := 4, Open := 108, High := 108, Low := 100, Close := 104, Volume := 1 } ] }

/-! ## Helper lemmas -/

/-- When a window holds an index-adjacent Thursday/Friday pair, the source
scan loop halts on the first such pair, regardless of the incoming
`thursday_data` state. -/
theorem scanTF_of_adjacent (l : List PriceBar) :
    ∀ th t f, firstAdjacentTF l = some (t, f) → scanTF th l = (some t, some f) := by
  induction l with
  | nil => intro th t f h; simp [firstAdjacentTF] at h
  | cons b rest ih =>
    intro th t f h
    match rest with
    | [] => simp [firstAdjacentTF] at h
    | c :: rest' =>
      by_cases hb : b.weekday = 3
      · by_cases hc : c.weekday = 4
        · rw [firstAdjacentTF] at h
          rw [if_pos ⟨hb, hc⟩] at h
          injection h with h'
          injection h' with h1 h2
          subst h1; subst h2
          rw [scanTF, if_pos hb, if_pos hc]
        · rw [firstAdjacentTF, if_neg (by simp [hb, hc])] at h
          rw [scanTF, if_pos hb, if_neg hc]
          exact ih (some b) t f h
      · rw [firstAdjacentTF, if_neg (by simp [hb])] at h
        rw [scanTF, if_neg hb]
        exact ih th t f h

/-- When a window holds no index-adjacent Thursday/Friday pair, the source
scan loop never sets `friday_data`. -/
theorem scanTF_of_no_adjacent (l : List PriceBar) :
    ∀ th, firstAdjacentTF l = none → (scanTF th l).2 = none := by
  induction l with
  | nil => intro th _; simp [scanTF]
  | cons b rest ih =>
    intro th h
    match rest with
    | [] => simp [scanTF]
    | c :: rest' =>
      by_cases hb : b.weekday = 3
      · by_cases hc : c.weekday = 4
        · rw [firstAdjacentTF, if_pos ⟨hb, hc⟩] at h
          exact absurd h (by simp)
        · rw [firstAdjacentTF, if_neg (by simp [hb, hc])] at h
          rw [scanTF, if_pos hb, if_neg hc]
          exact ih (some b) h
      · rw [firstAdjacentTF, if_neg (by simp [hb])] at h
        rw [scanTF, if_neg hb]
        exact ih th h

/-- Both bars of the first adjacent pair belong to the window. -/
theorem firstAdjacentTF_mem (l : List PriceBar) :
    ∀ t f, firstAdjacentTF l = some (t, f) → t ∈ l ∧ f ∈ l := by
  induction l with
  | nil => intro t f h; simp [firstAdjacentTF] at h
  | cons b rest ih =>
    intro t f h
    match rest with
    | [] => simp [firstAdjacentTF] at h
    | c :: rest' =>
      rw [firstAdjacentTF] at h
      split at h
      · injection h with h'
        injection h' with h1 h2
        subst h1; subst h2
        exact ⟨List.mem_cons_self .., List.mem_cons_of_mem _ (List.mem_cons_self ..)⟩
      · obtain ⟨ht, hf⟩ := ih t f h
        exact ⟨List.mem_cons_of_mem _ ht, List.mem_cons_of_mem _ hf⟩

/-- Entry `i` of a `zipWith` is `f` applied to the entries `i` of the two
lists, defined exactly when both are. -/
theorem zipWith_get? {α β γ : Type} (f : α → β → γ) :
    ∀ (as : List α) (bs : List β) (i : Nat),
      (List.zipWith f as bs)[i]? =
        match as[i]?, bs[i]? with
        | some a, some b => some (f a b)
        | _, _ => none := by
  intro as
  induction as with
  | nil => intro bs i; cases bs <;> cases i <;> simp
  | cons a as ih =>
    intro bs i
    cases bs with
    | nil => cases i <;> simp
    | cons b bs => cases i <;> simp [ih]

/-- The `has_gap_down` flag of every emitted gap dict equals the decision
`gap_pct < -0.3`. -/
theorem check_monday_gap_flag (data : Option DataFrame) (g : GapInfo)
    (h : check_monday_gap data = some g) :
    g.has_gap_down = decide (g.gap_pct < -(3 / 10)) := by
  cases data with
  | none => simp [check_monday_gap] at h
  | some df =>
    rw [check_monday_gap] at h
    split at h
    · exact absurd h (by simp)
    · dsimp only at h
      split at h
      · split at h
        · exact absurd h (by simp)
        · injection h with h'
          subst h'
          rfl
      · exact absurd h (by simp)

/-! ## Claim theorems -/

/-- C1: the claim says the synthesizer must skip a degenerate setup
(entry = stop, or entry = 0) without dividing by zero; the code instead
reaches a scalar division with a zero divisor (a `ZeroDivisionError`) in
both copies, for entry = stop = 100 and for entry = 0. -/
theorem c1_degenerate_risk_divides_by_zero :
    trading_app.monday_signal 100000 100 97 100 = .error .divByZero ∧
    email_automation.send_monday_alert_signal 100000 100 97 100 = .error .divByZero ∧
    trading_app.monday_signal 100000 0 97 102 = .error .divByZero ∧
    email_automation.send_monday_alert_signal 100000 0 97 102 = .error .divByZero := by
  refine ⟨?_, ?_, ?_, ?_⟩ <;>
    norm_num [trading_app.monday_signal, trading_app.calculate_position_size,
      email_automation.send_monday_alert_signal]

/-- C7: for every bar sequence shorter than 20 bars, both copies of
`calculate_indicators` return the frame unchanged, with every indicator
column still absent, and raise no exception. -/
theorem c7_short_series_unchanged (bars : List PriceBar) (h : bars.length < 20) :
    trading_app.calculate_indicators (DataFrame.mk bars none none none none none) =
      DataFrame.mk bars none none none none none ∧
    email_automation.calculate_indicators (DataFrame.mk bars none none none none none) =
      DataFrame.mk bars none none none none none := by
  constructor <;>
    simp [trading_app.calculate_indicators, email_automation.calculate_indicators, h]

/-- Witness for C7 at a concrete three-bar series. -/
theorem c7_short_series_unchanged_witness :
    dfShort.bars.length < 20 ∧
      trading_app.calculate_indicators
          (DataFrame.mk dfShort.bars none none none none none) =
        DataFrame.mk dfShort.bars none none none none none :=
  ⟨by decide, (c7_short_series_unchanged dfShort.bars (by decide)).1⟩

/-- C5: every emitted gap dict has `has_gap_down` true exactly when
`gap_pct` is strictly below -0.3, and a gap of exactly -0.3 is not
actionable. -/
theorem c5_gap_actionable_iff (data : Option DataFrame) (g : GapInfo)
    (h : check_monday_gap data = some g) :
    (g.has_gap_down = true ↔ g.gap_pct < -(3 / 10)) ∧
    (g.gap_pct = -(3 / 10) → g.has_gap_down = false) := by
  have hg := check_monday_gap_flag data g h
  constructor
  · rw [hg]; simp
  · intro he; rw [hg, he]; simp

/-- Witness for C5 at a concrete Friday-close-100 / Monday-open-99 frame
(a -1% gap, actionable). -/
theorem c5_gap_actionable_iff_witness :
    check_monday_gap (some dfGap) =
        some (GapInfo.mk 100 99 98 100 (-1) true) ∧
      ((GapInfo.mk 100 99 98 100 (-1) true).has_gap_down = true ↔
        (GapInfo.mk 100 99 98 100 (-1) true).gap_pct < -(3 / 10)) :=
  ⟨by norm_num [check_monday_gap, dfGap, scanFM],
   (c5_gap_actionable_iff (some dfGap) (GapInfo.mk 100 99 98 100 (-1) true)
      (by norm_num [check_monday_gap, dfGap, scanFM])).1⟩

/-- C9: for entry 100, stop 102, target 97 and capital 100000 the
`email_automation.py` synthesizer computes risk_pct 2, risk_amount 1000,
position_value 50000, shares 500 and a negative profit-if-target of
-1500 — the sign-edge case is produced, not rejected. -/
theorem c9_sign_edge_case_values :
    email_automation.send_monday_alert_signal 100000 100 97 102 =
      .ok
        { Entry := 100, Target := 97, Stop := 102, profit_pct := -3,
          risk_pct := 2, risk_amount := 1000, position_value := 50000,
          Shares := 500, Position := 50000, Profit := -1500, Loss := -1000 } := by
  norm_num [email_automation.send_monday_alert_signal, pyInt]

/-- C2 counterexample: on a holiday-shifted window whose first Thursday is
not followed by a Friday (weekdays Thu, Mon, Tue, Thu, Fri), the source
detector keeps scanning and emits a candidate from the second
Thursday/Friday pair, while the claim's first-Thursday-only scan stops and
emits nothing. -/
theorem c2_first_thursday_only_counterexample :
    trading_app.check_pattern_setup (some dfTwoThursdays) ≠
      check_pattern_setup_firstThursday (some dfTwoThursdays) := by
  norm_num [trading_app.check_pattern_setup, check_pattern_setup_firstThursday,
    dfTwoThursdays, tail5, scanTF, firstThursdayScan, flatBar, lastOf, belowSma20]
  exact Option.some_ne_none _

/-- C2 amended: scanning stops at the first Thursday that is immediately
followed by a Friday; a Thursday without a following Friday does not stop
the scan, so the detector emits from the first index-adjacent
Thursday-then-Friday pair of the trailing five bars. -/
theorem c2_amended_stops_at_first_adjacent_pair (data : Option DataFrame) :
    trading_app.check_pattern_setup data = check_pattern_setup_adjacent data := by
  cases data with
  | none => rfl
  | some df =>
    rw [trading_app.check_pattern_setup, check_pattern_setup_adjacent]
    by_cases hlen : df.bars.length < 2
    · simp [hlen]
    · simp only [if_neg hlen]
      rcases hfa : firstAdjacentTF (tail5 df.bars) with _ | ⟨t, f⟩
      · have h2 := scanTF_of_no_adjacent (tail5 df.bars) none hfa
        rcases hs : scanTF none (tail5 df.bars) with ⟨a, b⟩
        rw [hs] at h2
        simp only at h2
        subst h2
        cases a <;> rfl
      · rw [scanTF_of_adjacent (tail5 df.bars) none t f hfa]

/-- C10: the duplicated setup detectors agree: on every input the
`trading_app.py` copy emits exactly when the `email_automation.py` copy
does, and the shared fields (friday_low, friday_close, friday_high,
decline_pct, rsi) coincide. -/
theorem c10_duplicate_detectors_agree (data : Option DataFrame) :
    Option.map Pattern.shared (trading_app.check_pattern_setup data) =
      email_automation.check_pattern_setup data := by
  cases data with
  | none => rfl
  | some df =>
    rw [trading_app.check_pattern_setup, email_automation.check_pattern_setup]
    by_cases hlen : df.bars.length < 2
    · simp [hlen]
    · simp only [if_neg hlen]
      rcases hs : scanTF none (tail5 df.bars) with ⟨a, b⟩
      cases a <;> cases b <;> try rfl
      rename_i t f
      by_cases hlt : f.High < t.High <;> simp [hlt, Pattern.shared]

/-- C3 counterexample: on a 20-bar frame the argument object is mutated by
the call — after `calculate_indicators(data)` the caller's frame is no
longer the frame that was passed in (indicator columns were assigned to
it), refuting "the input sequence is unchanged after the call". -/
theorem c3_pure_function_counterexample :
    (trading_app.calculate_indicators_call df20).1 ≠ df20 := by
  intro h
  have hR := congrArg DataFrame.RSI h
  rw [trading_app.calculate_indicators_call] at hR
  rw [trading_app.calculate_indicators] at hR
  rw [if_neg (by simp [df20])] at hR
  simp [df20] at hR

/-- C3 amended: the indicator calculator mutates its argument in place and
returns that same object: the argument's state after the call equals the
returned frame (not, in general, the original), while the underlying OHLCV
bars are never changed — only indicator columns are attached. -/
theorem c3_amended_in_place_mutation (data : DataFrame) :
    (trading_app.calculate_indicators_call data).1 =
      (trading_app.calculate_indicators_call data).2 ∧
    ((trading_app.calculate_indicators_call data).1).bars = data.bars := by
  refine ⟨rfl, ?_⟩
  rw [trading_app.calculate_indicators_call]
  rw [trading_app.calculate_indicators]
  split <;> rfl

/-- Whenever the scan loop ends with a `friday_data`, the recorded pair are
two bars of the scanned window. -/
theorem scanTF_pair_mem (l : List PriceBar) :
    ∀ th t f, scanTF th l = (some t, some f) → t ∈ l ∧ f ∈ l := by
  induction l with
  | nil => intro th t f h; simp [scanTF] at h
  | cons b rest ih =>
    intro th t f h
    match rest with
    | [] => simp [scanTF] at h
    | c :: rest' =>
      by_cases hb : b.weekday = 3
      · by_cases hc : c.weekday = 4
        · rw [scanTF, if_pos hb, if_pos hc] at h
          injection h with h1 h2
          injection h1 with h1
          injection h2 with h2
          subst h1; subst h2
          exact ⟨List.mem_cons_self .., List.mem_cons_of_mem _ (List.mem_cons_self ..)⟩
        · rw [scanTF, if_pos hb, if_neg hc] at h
          obtain ⟨ht, hf⟩ := ih (some b) t f h
          exact ⟨List.mem_cons_of_mem _ ht, List.mem_cons_of_mem _ hf⟩
      · rw [scanTF, if_neg hb] at h
        obtain ⟨ht, hf⟩ := ih th t f h
        exact ⟨List.mem_cons_of_mem _ ht, List.mem_cons_of_mem _ hf⟩

/-- C8: with positive highs, the setup detector emits nothing when the
first adjacent Thursday/Friday pair has the Friday high at or above the
Thursday high, emits nothing when the trailing five bars hold no adjacent
Thursday-then-Friday pair, and every emitted candidate carries
`decline_pct = (friday_high - thursday_high) / thursday_high * 100 ≤ 0`. -/
theorem c8_setup_emission (df : DataFrame)
    (hpos : ∀ b ∈ df.bars, 0 < b.High) :
    (∀ t f, firstAdjacentTF (tail5 df.bars) = some (t, f) → t.High ≤ f.High →
        trading_app.check_pattern_setup (some df) = none) ∧
    (firstAdjacentTF (tail5 df.bars) = none →
        trading_app.check_pattern_setup (some df) = none) ∧
    (∀ c, trading_app.check_pattern_setup (some df) = some c →
        c.decline_pct = (c.friday_high - c.thursday_high) / c.thursday_high * 100 ∧
        c.decline_pct ≤ 0) := by
  refine ⟨?_, ?_, ?_⟩
  · intro t f hfa hle
    rw [trading_app.check_pattern_setup]
    by_cases hlen : df.bars.length < 2
    · simp [hlen]
    · simp only [if_neg hlen]
      rw [scanTF_of_adjacent (tail5 df.bars) none t f hfa]
      simp [not_lt.mpr hle]
  · intro hfa
    rw [trading_app.check_pattern_setup]
    by_cases hlen : df.bars.length < 2
    · simp [hlen]
    · simp only [if_neg hlen]
      have h2 := scanTF_of_no_adjacent (tail5 df.bars) none hfa
      rcases hs : scanTF none (tail5 df.bars) with ⟨a, b⟩
      rw [hs] at h2
      simp only at h2
      subst h2
      cases a <;> rfl
  · intro c hc
    rw [trading_app.check_pattern_setup] at hc
    split at hc
    · exact absurd hc (by simp)
    · dsimp only at hc
      split at hc
      case _ t f heq =>
        have hmem := scanTF_pair_mem (tail5 df.bars) none t f heq
        have ht : 0 < t.High := hpos t (List.drop_subset _ _ hmem.1)
        split at hc
        case isTrue hlt =>
          injection hc with hc
          subst hc
          refine ⟨rfl, ?_⟩
          have hnum : f.High - t.High ≤ 0 := by linarith
          have hdiv : (f.High - t.High) / t.High ≤ 0 :=
            div_nonpos_of_nonpos_of_nonneg hnum ht.le
          nlinarith
        case isFalse => exact absurd hc (by simp)
      case _ => exact absurd hc (by simp)

/-- Witness for C8 at the spec's end-to-end setup: Thursday high 110,
Friday high 108 / low 100 / close 104 emits a candidate with
decline_pct = -20/11 ≤ 0. -/
theorem c8_setup_emission_witness :
    trading_app.check_pattern_setup (some dfSetup) =
        some (Pattern.mk 110 108 100 104 (-(20 / 11)) none false none) ∧
      (Pattern.mk 110 108 100 104 (-(20 / 11)) none false none).decline_pct ≤ 0 :=
  ⟨by norm_num [trading_app.check_pattern_setup, dfSetup, tail5, scanTF, lastOf, belowSma20],
   ((c8_setup_emission dfSetup (by norm_num [dfSetup])).2.2
      (Pattern.mk 110 108 100 104 (-(20 / 11)) none false none)
      (by norm_num [trading_app.check_pattern_setup, dfSetup, tail5, scanTF, lastOf,
        belowSma20])).2⟩

/-- C6: whenever the frame has at least 20 bars and at some bar the
trailing-14 rolling average loss is zero while the rolling average gain is
positive, the RSI both copies of `calculate_indicators` attach at that bar
is exactly the finite value 100 — the division by the zero average loss
produces an infinity that saturates, not an error and not NaN. -/
theorem c6_rsi_saturates_at_100 (df : DataFrame) (i : Nat) (g : ℚ)
    (h20 : 20 ≤ df.bars.length)
    (hl : (rollingMean 14 (losses df.closes))[i]? = some (some 0))
    (hg : (rollingMean 14 (gains df.closes))[i]? = some (some g))
    (hgpos : 0 < g) :
    ((trading_app.calculate_indicators df).RSI.bind fun l => l[i]?) =
        some (RVal.fin 100) ∧
    ((email_automation.calculate_indicators df).RSI.bind fun l => l[i]?) =
        some (RVal.fin 100) := by
  have hnot : ¬ df.bars.length < 20 := not_lt.mpr h20
  have hdiv : RVal.div (.fin g) (.fin 0) = .inf := by
    simp [RVal.div, hgpos]
  have hrsi : (rsiList df.closes)[i]? = some (RVal.fin 100) := by
    rw [rsiList, zipWith_get? _ _ _ i, hg, hl]
    dsimp only
    rw [hdiv]
    norm_num [RVal.sub, RVal.add, RVal.div, RVal.neg]
  constructor <;>
    simp [trading_app.calculate_indicators, email_automation.calculate_indicators,
      hnot, hrsi]

/-- Witness for C6: on twenty strictly rising closes 1..20 the trailing-14
average loss at the last bar is 0, the average gain is 1, and the attached
RSI is exactly 100. -/
theorem c6_rsi_saturates_at_100_witness :
    (0 : ℚ) < 1 ∧
      ((trading_app.calculate_indicators df20).RSI.bind fun l => l[19]?) =
        some (RVal.fin 100) :=
  ⟨by norm_num,
   (c6_rsi_saturates_at_100 df20 19 1 (by norm_num [df20])
      (by norm_num [rollingMean, losses, diffs, diffs.diffsFrom, df20, flatBar,
        DataFrame.closes])
      (by norm_num [rollingMean, gains, diffs, diffs.diffsFrom, df20, flatBar,
        DataFrame.closes])
      (by norm_num)).1⟩

/-- C4: for every signal the Monday scanner produces with positive capital,
positive entry and a nonzero stop distance, the realized capital risk
`|shares * (entry - stop)| / capital * 100` is at most 1: integer share
truncation can only shrink the 1% risk budget, never exceed it. -/
theorem c4_capital_risk_at_most_one_pct (capital entry target stop : ℚ)
    (hc : 0 < capital) (he : 0 < entry) (hs : stop ≠ entry)
    (sig : trading_app.TradeSignal)
    (h : trading_app.monday_signal capital entry target stop = .ok sig) :
    sig.Capital_Risk_pct ≤ 1 := by
  rw [trading_app.monday_signal, if_neg he.ne'] at h
  have hrpne : (stop - entry) / entry * 100 ≠ 0 :=
    mul_ne_zero (div_ne_zero (sub_ne_zero.mpr hs) he.ne') (by norm_num)
  have habs : ¬ (|(stop - entry) / entry * 100| / 100 = 0) :=
    div_ne_zero (abs_ne_zero.mpr hrpne) (by norm_num)
  dsimp only at h
  simp only [trading_app.calculate_position_size] at h
  rw [if_neg habs] at h
  dsimp only at h
  injection h with h'
  subst h'
  dsimp only
  have hD : 0 < |stop - entry| := abs_pos.mpr (sub_ne_zero.mpr hs)
  have habs_eq : |(stop - entry) / entry * 100| = |stop - entry| / entry * 100 := by
    rw [abs_mul, abs_div, abs_of_pos he]
    norm_num
  have hpv_entry :
      capital * (1 / 100) / (|(stop - entry) / entry * 100| / 100) / entry =
        capital / (100 * |stop - entry|) := by
    rw [habs_eq]
    field_simp
    ring
  rw [hpv_entry]
  have hq : 0 < capital / (100 * |stop - entry|) := by positivity
  rw [pyInt, if_pos hq.le]
  have hfl0 : (0 : ℚ) ≤ (⌊capital / (100 * |stop - entry|)⌋ : ℚ) := by
    exact_mod_cast Int.floor_nonneg.mpr hq.le
  have h1 : |(⌊capital / (100 * |stop - entry|)⌋ : ℚ) * (entry - stop)| =
      (⌊capital / (100 * |stop - entry|)⌋ : ℚ) * |stop - entry| := by
    rw [abs_mul, abs_sub_comm entry stop, abs_of_nonneg hfl0]
  have h2 : (⌊capital / (100 * |stop - entry|)⌋ : ℚ) ≤
      capital / (100 * |stop - entry|) := Int.floor_le _
  have h3 : (⌊capital / (100 * |stop - entry|)⌋ : ℚ) * |stop - entry| ≤
      capital / (100 * |stop - entry|) * |stop - entry| :=
    mul_le_mul_of_nonneg_right h2 hD.le
  have h4 : capital / (100 * |stop - entry|) * |stop - entry| = capital / 100 := by
    field_simp
    ring
  rw [h1]
  rw [div_mul_eq_mul_div, div_le_one hc]
  nlinarith [h3, h4]

/-- Witness for C4: capital 100000, entry 100, target 97, stop 102 yields
500 shares and a realized capital risk of exactly 1 percent. -/
theorem c4_capital_risk_at_most_one_pct_witness :
    trading_app.monday_signal 100000 100 97 102 =
        .ok (trading_app.TradeSignal.mk 100 97 102 500 50000 (-3) 2 (3 / 2)
          (-1500) (-1000) 1) ∧
      (trading_app.TradeSignal.mk 100 97 102 500 50000 (-3) 2 (3 / 2)
          (-1500) (-1000) 1).Capital_Risk_pct ≤ 1 :=
  ⟨by norm_num [trading_app.monday_signal, trading_app.calculate_position_size, pyInt],
   c4_capital_risk_at_most_one_pct 100000 100 97 102 (by norm_num) (by norm_num)
     (by norm_num)
     (trading_app.TradeSignal.mk 100 97 102 500 50000 (-3) 2 (3 / 2) (-1500) (-1000) 1)
     (by norm_num [trading_app.monday_signal, trading_app.calculate_position_size,
       pyInt])⟩
